import Mathlib

/-!
# Verification of the opencommit commit workflow

Shallow embedding of the Rust sources of `rust-auto-commit` (an `opencommit`
port): the configuration model (`src/commands/config.rs`), the prompt
assembler (`src/prompts.rs`), the OpenAI engine's pre-network phase
(`src/engine/openai.rs`), the message-template handling and the interactive
commit workflow (`src/commands/commit.rs`), together with theorems checking
the natural-language specification against these definitions.

Machine integers (`usize`) are modelled as `Nat` with explicit wrap-around
(`% 2 ^ 64`) where the Rust subtraction can underflow.  Fallible code is
modelled with `Except` / `Option`.  The external BPE tokenizer behind
`token_count` (crate `tiktoken_rs`) is abstracted as a parameter
`tc : String → Nat`; every theorem about the token budget is stated for an
arbitrary tokenizer or instantiates it explicitly.
-/

deriving instance DecidableEq for Except

namespace Oco

/-- Role-tagged chat message (`src/engine/engine.rs`, `struct Message`). -/
structure Message where
  role : String
  content : String
deriving DecidableEq

/-- `Message::system` (`src/engine/engine.rs`). -/
def Message.system (content : String) : Message := ⟨"system", content⟩

/-- `Message::user` (`src/engine/engine.rs`). -/
def Message.user (content : String) : Message := ⟨"user", content⟩

/-- `Message::assistant` (`src/engine/engine.rs`). -/
def Message.assistant (content : String) : Message := ⟨"assistant", content⟩

/-- Resolved configuration (`src/commands/config.rs`, `struct Config`).
`usize` fields become `Nat`. -/
structure Config where
  api_key : Option String
  tokens_max_input : Nat
  tokens_max_output : Nat
  description : Bool
  emoji : Bool
  model : String
  language : String
  message_template_placeholder : String
  prompt_module : String
  ai_provider : String
  one_line_commit : Bool
  api_url : Option String
  gitpush : Bool
  why : Bool
deriving DecidableEq

/-- `impl Default for Config` (`src/commands/config.rs`). -/
def Config.default : Config where
  api_key := none
  tokens_max_input := 40960
  tokens_max_output := 4096
  description := false
  emoji := false
  model := "gpt-4o-mini"
  language := "en"
  message_template_placeholder := "$msg"
  prompt_module := "conventional-commit"
  ai_provider := "openai"
  one_line_commit := false
  api_url := none
  gitpush := true
  why := false

/-- Error taxonomy (`src/error.rs`), restricted to the variants the embedded
code can produce. -/
inductive Error where
  | NotGitRepository
  | NoStagedFiles
  | NoApiKey
  | TooManyTokens (count : Nat)
  | EmptyCommitMessage
  | UserCancelled
  | InvalidConfiguration (detail : String)
  | UnsupportedAiProvider (provider : String)
  | AiProviderError (detail : String)
deriving DecidableEq

/-- Rust `str::contains(&str)`: the pattern occurs as a contiguous substring.
Modelled as `List.IsInfix` on the character data. -/
def strContains (s pat : String) : Bool := decide (pat.data <:+: s.data)

/-- One step list of Rust `str::replace`: replace every non-overlapping
occurrence of `pat`, scanning left to right.  `fuel` bounds the recursion by
the length of the scanned list; each step consumes at least one character
when `pat` is non-empty, so `fuel = s.length` is exact. -/
def replaceAllAux (pat rep : List Char) : Nat → List Char → List Char
  | _, [] => []
  | 0, s => s
  | fuel + 1, c :: cs =>
    if pat.isPrefixOf (c :: cs) then
      rep ++ replaceAllAux pat rep fuel ((c :: cs).drop pat.length)
    else
      c :: replaceAllAux pat rep fuel cs

/-- Rust `str::replace(pat, rep)` (replace all occurrences).  An empty
pattern matches at every character boundary, as in Rust. -/
def rustReplace (s pat rep : String) : String :=
  if pat.data.isEmpty then
    ⟨rep.data ++ s.data.flatMap (fun c => c :: rep.data)⟩
  else
    ⟨replaceAllAux pat.data rep.data s.data.length s.data⟩

/-- Rust `str::replacen(pat, rep, 1)`: replace only the first occurrence. -/
def replaceFirstAux (pat rep : List Char) : List Char → List Char
  | [] => []
  | c :: cs =>
    if pat.isPrefixOf (c :: cs) then
      rep ++ (c :: cs).drop pat.length
    else
      c :: replaceFirstAux pat rep cs

/-- Rust `str::replacen(pat, rep, 1)` on strings. -/
def replaceFirst (s pat rep : String) : String :=
  ⟨replaceFirstAux pat.data rep.data s.data⟩

/-- `check_message_template` (`src/commands/commit.rs` lines 16-23): first
trailing argument containing the configured placeholder, if any. -/
def check_message_template (extra_args : List String) (config : Config) :
    Option String :=
  extra_args.find? (fun arg => strContains arg config.message_template_placeholder)

/-- The `git commit` invocation assembled by `execute_commit`: the `-m`
message and the extra arguments appended after it. -/
structure GitCommitCall where
  message : String
  args : List String
deriving DecidableEq

/-- Message-template phase of `execute_commit` (`src/commands/commit.rs`
lines 139-145) combined with the commit-argument assembly (lines 180-183).
The source computes `new_extra_args` with the template argument removed, but
then builds the commit arguments from the original `extra_args`; the removed
list is dead.  The dead computation is kept here as `_new_extra_args`. -/
def commit_call (extra_args : List String) (config : Config)
    (generated : String) : GitCommitCall :=
  match check_message_template extra_args config with
  | some template =>
    let _new_extra_args := extra_args.erase template
    { message := rustReplace template config.message_template_placeholder generated
      args := extra_args }
  | none => { message := generated, args := extra_args }

/-! ## The OpenAI engine up to the network call (`src/engine/openai.rs`) -/

/-- Engine configuration (`src/engine/engine.rs`, `struct EngineConfig`). -/
structure EngineConfig where
  api_key : String
  model : String
  max_tokens_output : Nat
  max_tokens_input : Nat
  base_url : Option String
deriving DecidableEq

/-- `usize` subtraction as compiled in release mode: wraps modulo `2 ^ 64`. -/
def usizeSub (a b : Nat) : Nat := (a + 2 ^ 64 - b) % 2 ^ 64

/-- The outbound message list built by `generate_commit_message`
(`src/engine/openai.rs` lines 63-77): every non-`"user"` message of the
assembled sequence, in order, then one user message carrying the diff. -/
def openai_messages (messages : List Message) (diff : String) : List Message :=
  messages.filter (fun m => m.role != "user") ++ [Message.user diff]

/-- `request_tokens` (`src/engine/openai.rs` lines 80-82): sum over the given
messages of the tokenizer length of the content plus a fixed overhead of 4.
`tc` abstracts `token_count` (`src/utils/token_count.rs`), whose BPE tables
live in an external crate. -/
def request_tokens (tc : String → Nat) (msgs : List Message) : Nat :=
  (msgs.map (fun m => tc m.content + 4)).sum

/-- The JSON request `generate_commit_message` would send
(`src/engine/openai.rs` lines 89-95); the constant sampling parameters
`temperature = 0.0` and `top_p = 0.1` are left out of the model. -/
structure OpenAiRequest where
  model : String
  messages : List Message
  max_tokens : Nat
deriving DecidableEq

/-- `generate_commit_message` up to the network call (`src/engine/openai.rs`
lines 61-95): build the outbound messages, run the token-budget check, and
either fail with `TooManyTokens` (no request is issued) or return the request
that would be sent. -/
def generate_commit_message (tc : String → Nat) (config : EngineConfig)
    (messages : List Message) (diff : String) : Except Error OpenAiRequest :=
  let msgs := openai_messages messages diff
  let tokens := request_tokens tc msgs
  if tokens > usizeSub config.max_tokens_input config.max_tokens_output then
    .error (.TooManyTokens tokens)
  else
    .ok { model := config.model, messages := msgs, max_tokens := config.max_tokens_output }

/-- The token count as claim C2 words it (spec §4.3): the sum over all
messages excluding the final diff-carrying user turn that the engine appends
itself.  This definition follows the claim, to be compared with
`request_tokens` over `openai_messages`; it is not code of the repository. -/
def claim_token_count (tc : String → Nat) (messages : List Message) : Nat :=
  request_tokens tc (messages.filter (fun m => m.role != "user"))

/-! ## Configuration validation (`src/commands/config.rs`) -/

/-- Configuration keys (`src/commands/config.rs`, `enum ConfigKey`). -/
inductive ConfigKey where
  | OcoApiKey
  | OcoTokensMaxInput
  | OcoTokensMaxOutput
  | OcoDescription
  | OcoEmoji
  | OcoModel
  | OcoLanguage
  | OcoMessageTemplateplaceholder
  | OcoPromptModule
  | OcoAiProvider
  | OcoOneLineCommit
  | OcoApiUrl
  | OcoGitpush
  | OcoWhy
deriving DecidableEq

/-- ASCII-only lower casing of one character, as Rust's
`u8::to_ascii_lowercase` applied per byte (and, on the ASCII provider and
language strings involved, as Rust's `str::to_lowercase`). -/
def charLowerAscii (c : Char) : Char :=
  if 65 ≤ c.toNat ∧ c.toNat ≤ 90 then Char.ofNat (c.toNat + 32) else c

/-- ASCII lower casing of a string. -/
def lowerAscii (s : String) : String := ⟨s.data.map charLowerAscii⟩

/-- Rust `str::eq_ignore_ascii_case`. -/
def eqIgnoreAsciiCase (a b : String) : Bool := lowerAscii a == lowerAscii b

/-- AI providers (`src/commands/config.rs`, `enum AiProvider`). -/
inductive AiProvider where
  | OpenAi
  | Anthropic
  | Azure
  | Ollama
  | Gemini
  | Flowise
  | Groq
  | Mistral
  | Mlx
  | Deepseek
  | Test
deriving DecidableEq

/-- `impl FromStr for AiProvider` (`src/commands/config.rs` lines 95-114):
case-insensitive provider lookup. -/
def AiProvider.fromStr (s : String) : Except Error AiProvider :=
  let l := lowerAscii s
  if l = "openai" then .ok .OpenAi
  else if l = "anthropic" then .ok .Anthropic
  else if l = "azure" then .ok .Azure
  else if l = "ollama" then .ok .Ollama
  else if l = "gemini" then .ok .Gemini
  else if l = "flowise" then .ok .Flowise
  else if l = "groq" then .ok .Groq
  else if l = "mistral" then .ok .Mistral
  else if l = "mlx" then .ok .Mlx
  else if l = "deepseek" then .ok .Deepseek
  else if l = "test" then .ok .Test
  else .error (.UnsupportedAiProvider s)

/-- Digit part of Rust `str::parse::<usize>()`: decimal digits only,
rejecting the empty string and values outside the 64-bit range. -/
def parse_usize_digits (ds : List Char) : Option Nat :=
  if ds.isEmpty ∨ ¬ ds.all (fun c => c.isDigit) then none
  else
    if ds.foldl (fun acc c => acc * 10 + (c.toNat - 48)) 0 < 2 ^ 64 then
      some (ds.foldl (fun acc c => acc * 10 + (c.toNat - 48)) 0)
    else none

/-- Rust `str::parse::<usize>()`: an optional leading `+`, then decimal
digits. -/
def parse_usize (s : String) : Option Nat :=
  parse_usize_digits
    (match s.data with
     | '+' :: rest => rest
     | l => l)

/-- Rust `str::parse::<bool>()`: exactly `"true"` or `"false"`. -/
def parse_bool (s : String) : Option Bool :=
  if s = "true" then some true else if s = "false" then some false else none

/-- `validate_config` (`src/commands/config.rs` lines 380-468): per-key value
validation used by `oco config set`. -/
def validate_config (key : ConfigKey) (value : String) : Except Error String :=
  match key with
  | .OcoApiKey =>
    if value = "" then .error (.InvalidConfiguration "API key cannot be empty")
    else .ok value
  | .OcoTokensMaxInput =>
    match parse_usize value with
    | some _ => .ok value
    | none => .error (.InvalidConfiguration "Tokens max input must be a number")
  | .OcoTokensMaxOutput =>
    match parse_usize value with
    | some _ => .ok value
    | none => .error (.InvalidConfiguration "Tokens max output must be a number")
  | .OcoDescription =>
    match parse_bool value with
    | some _ => .ok value
    | none => .error (.InvalidConfiguration "Description must be a boolean")
  | .OcoEmoji =>
    match parse_bool value with
    | some _ => .ok value
    | none => .error (.InvalidConfiguration "Emoji must be a boolean")
  | .OcoModel => .ok value
  | .OcoLanguage => .ok value
  | .OcoMessageTemplateplaceholder =>
    if value.data.head? = some '$' then .ok value
    else .error (.InvalidConfiguration "Message template placeholder must start with $")
  | .OcoPromptModule =>
    if value = "conventional-commit" ∨ value = "@commitlint" then .ok value
    else .error (.InvalidConfiguration
      "Prompt module must be 'conventional-commit' or '@commitlint'")
  | .OcoAiProvider =>
    match AiProvider.fromStr value with
    | .ok _ => .ok value
    | .error e => .error e
  | .OcoOneLineCommit =>
    match parse_bool value with
    | some _ => .ok value
    | none => .error (.InvalidConfiguration "One line commit must be a boolean")
  | .OcoApiUrl =>
    if "http://".data.isPrefixOf value.data ∨ "https://".data.isPrefixOf value.data then
      .ok value
    else .error (.InvalidConfiguration "API URL must start with http:// or https://")
  | .OcoGitpush =>
    match parse_bool value with
    | some _ => .ok value
    | none => .error (.InvalidConfiguration "Gitpush must be a boolean")
  | .OcoWhy =>
    match parse_bool value with
    | some _ => .ok value
    | none => .error (.InvalidConfiguration "Why must be a boolean")


/-! ## Localisation (`src/i18n`) and the prompt assembler (`src/prompts.rs`) -/

/-- Translation data (`src/i18n/mod.rs`, `struct TranslationData`). -/
structure TranslationData where
  local_language : String
  commit_fix : String
  commit_feat : String
  commit_description : String
deriving DecidableEq

/-- `src/i18n/en.rs`. -/
def enTranslation : TranslationData where
  local_language := "english"
  commit_fix := "fix(server.ts): change port variable case from lowercase port to uppercase PORT to improve semantics"
  commit_feat := "feat(server.ts): add support for process.env.PORT environment variable to be able to run app on a configurable port"
  commit_description := "The port variable is now named PORT, which improves consistency with the naming conventions as PORT is a constant. Support for an environment variable allows the application to be more flexible as it can now run on any available port specified via the process.env.PORT environment variable."

/-- `src/i18n/pt-br.rs`. -/
def ptBrTranslation : TranslationData where
  local_language := "portuguese"
  commit_fix := "fix(server.ts): alterar a caixa da variável de minúscula port para maiúscula PORT para melhorar a semântica"
  commit_feat := "feat(server.ts): adicionar suporte para a variável de ambiente process.env.PORT para poder executar o aplicativo em uma porta configurável"
  commit_description := "A variável de porta agora é chamada PORT, o que melhora a consistência com as convenções de nomenclatura, pois PORT é uma constante. O suporte para uma variável de ambiente permite que o aplicativo seja mais flexível, pois agora ele pode ser executado em qualquer porta disponível especificada por meio da variável de ambiente process.env.PORT."

/-- Aliases of the language code `"en"` (`src/i18n/mod.rs` line 21). -/
def enAliases : List String := ["en", "english", "English"]

/-- Aliases of the language code `"pt_br"` (`src/i18n/mod.rs` line 22). -/
def ptBrAliases : List String :=
  ["pt_br", "pt-br", "portuguese", "Portuguese", "Brazilian Portuguese",
   "Português", "Português Brasileiro"]

/-- `get_language_code` (`src/i18n/mod.rs` lines 35-43).  The source iterates
a `HashMap` in unspecified order; the alias sets are disjoint, so the result
is the same as this ordered lookup. -/
def get_language_code (langAlias : String) : Except Error String :=
  if enAliases.any (fun a => eqIgnoreAsciiCase a langAlias) then .ok "en"
  else if ptBrAliases.any (fun a => eqIgnoreAsciiCase a langAlias) then .ok "pt_br"
  else .error (.InvalidConfiguration ("Unsupported language: " ++ langAlias))

/-- `get_translation` (`src/i18n/mod.rs` lines 46-52). -/
def get_translation (language : String) : Except Error TranslationData :=
  match get_language_code language with
  | .error e => .error e
  | .ok code =>
    if code = "en" then .ok enTranslation
    else if code = "pt_br" then .ok ptBrTranslation
    else .error (.InvalidConfiguration ("Translation not found for language: " ++ language))

/-- Rust `str::trim_start` (whitespace on the inputs involved is ASCII). -/
def trimStartStr (s : String) : String := ⟨s.data.dropWhile Char.isWhitespace⟩

/-- `IDENTITY` (`src/prompts.rs` line 7). -/
def IDENTITY : String :=
  "You are to act as an author of a commit message in git."

/-- `GITMOJI_HELP` (`src/prompts.rs` lines 10-21): abbreviated emoji legend. -/
def GITMOJI_HELP : String :=
  "Use GitMoji convention to preface the commit. Here are some help to choose the right emoji (emoji, description): \n🐛, Fix a bug; \n✨, Introduce new features; \n📝, Add or update documentation; \n🚀, Deploy stuff; \n✅, Add, update, or pass tests; \n♻️, Refactor code; \n⬆️, Upgrade dependencies; \n🔧, Add or update configuration files; \n🌐, Internationalization and localization; \n💡, Add or update comments in source code;"

/-- `FULL_GITMOJI_SPEC` (`src/prompts.rs` lines 24-94): full emoji legend. -/
def FULL_GITMOJI_SPEC : String :=
  "Use GitMoji convention to preface the commit. Here are all the available emoji options:\n🎨, Improve structure / format of the code; \n⚡️, Improve performance; \n🔥, Remove code or files; \n🐛, Fix a bug; \n🚑️, Critical hotfix; \n✨, Introduce new features; \n📝, Add or update documentation; \n🚀, Deploy stuff; \n💄, Add or update the UI and style files; \n🎉, Begin a project; \n✅, Add, update, or pass tests; \n🔒️, Fix security issues; \n🔐, Add or update secrets; \n🔖, Release / Version tags; \n🚨, Fix compiler / linter warnings; \n🚧, Work in progress; \n💚, Fix CI Build; \n⬇️, Downgrade dependencies; \n⬆️, Upgrade dependencies; \n📌, Pin dependencies to specific versions; \n👷, Add or update CI build system; \n📈, Add or update analytics or track code; \n➕, Add a dependency; \n➖, Remove a dependency; \n🔧, Add or update configuration files; \n🔨, Add or update development scripts; \n✏️, Fix typos; \n💩, Write bad code that needs to be improved; \n⏪️, Revert changes; \n🔀, Merge branches; \n📦️, Add or update compiled files or packages; \n👽️, Update code due to external API changes; \n🚚, Move or rename resources (e.g.: files, paths, routes); \n📄, Add or update license; \n💥, Introduce breaking changes; \n🍱, Add or update assets; \n♿️, Improve accessibility; \n💬, Add or update text and literals; \n🗃️, Perform database related changes; \n🔊, Add or update logs; \n🔇, Remove logs; \n👥, Add or update contributor(s); \n🚸, Improve user experience / usability; \n🏗️, Make architectural changes; \n📱, Work on responsive design; \n🤡, Mock things; \n🥚, Add or update an easter egg; \n🙈, Add or update a .gitignore file; \n📸, Add or update snapshots; \n⚗️, Perform experiments; \n🔍️, Improve SEO; \n🏷️, Add or update types; \n🌱, Add or update seed files; \n🚩, Add, update, or remove feature flags; \n🥅, Catch errors; \n💫, Add or update animations and transitions; \n🗑️, Deprecate code that needs to be cleaned up; \n🛂, Work on code related to authorization, roles and permissions; \n🩹, Simple fix for a non-critical issue; \n🧐, Data exploration/inspection; \n⚰️, Remove dead code; \n🧪, Add a failing test; \n👔, Add or update business logic; \n🩺, Add or update healthcheck; \n🧱, Infrastructure related changes; \n🧑‍💻, Improve developer experience; \n💸, Add sponsorships or money related infrastructure; \n🧵, Add or update code related to multithreading or concurrency; \n🦺, Add or update code related to validation."

/-- `CONVENTIONAL_COMMIT_KEYWORDS` (`src/prompts.rs` lines 97-98). -/
def CONVENTIONAL_COMMIT_KEYWORDS : String :=
  "Do not preface the commit with anything, except for the conventional commit keywords: fix, feat, build, chore, ci, docs, style, refactor, perf, test."

/-- `INIT_DIFF` (`src/prompts.rs` lines 101-125): the exemplar diff. The source file escapes backticks and dollars with a backslash; the literal content is embedded here. -/
def INIT_DIFF : String :=
  "diff --git a/src/server.ts b/src/server.ts\nindex ad4db42..f3b18a9 100644\n--- a/src/server.ts\n+++ b/src/server.ts\n@@ -10,7 +10,7 @@\nimport \x7b\n    initWinstonLogger();\n    \n    const app = express();\n    -const port = 7799;\n    +const PORT = 7799;\n    \n    app.use(express.json());\n    \n    @@ -34,6 +34,6 @@\n    app.use((_, res, next) => \x7b\n        // ROUTES\n        app.use(PROTECTED_ROUTER_URL, protectedRouter);\n        \n        -app.listen(port, () => \x7b\n            -  console.log(`Server listening on port $\x7bport\x7d`);\n            +app.listen(process.env.PORT || PORT, () => \x7b\n                +  console.log(`Server listening on port $\x7bPORT\x7d`);\n            \x7d);"

/-- `get_main_commit_prompt` (`src/prompts.rs` lines 128-212).  The source
loads the configuration through `Config::load`; the resolved configuration is
passed explicitly here (its process-wide caching is modelled separately by
`Config.load`). -/
def get_main_commit_prompt (config : Config) (full_gitmoji_spec : Bool)
    (context : String) : Except Error (List Message) :=
  match get_translation config.language with
  | .error e => .error e
  | .ok translation =>
    let commit_convention :=
      if config.emoji then
        if full_gitmoji_spec then FULL_GITMOJI_SPEC else GITMOJI_HELP
      else CONVENTIONAL_COMMIT_KEYWORDS
    let description_guidance :=
      if config.description then
        "Add a short description of WHY the changes are done after the commit message. Don't start it with \"This commit\", just describe the changes."
      else
        "Don't add any descriptions to the commit, only commit message."
    let one_line_guidance :=
      if config.one_line_commit then
        "Craft a concise commit message that encapsulates all changes made, with an emphasis on the primary updates. If the modifications share a common theme or scope, mention it succinctly; otherwise, leave the scope out to maintain focus. The goal is to provide a clear and unified overview of the changes in a one single message, without diverging into a list of commit per file change."
      else ""
    let user_context :=
      if context ≠ "" then
        "Additional context provided by the user: <context>" ++ context ++
        "</context>\nConsider this context when generating the commit message, incorporating relevant information when appropriate."
      else ""
    let system_content :=
      IDENTITY ++
      " Your mission is to create clean and comprehensive commit messages and explain WHAT were the changes " ++
      (if config.why then "and WHY the changes were done" else "") ++
      ".\nI'll send you an output of 'git diff --staged' command, and you are to convert it into a commit message.\n" ++
      commit_convention ++ "\n" ++
      description_guidance ++ "\n" ++
      one_line_guidance ++
      "\nUse the present tense. Lines must not be longer than 74 characters. Use " ++
      translation.local_language ++ " for the commit message.\n" ++
      user_context
    let consistency_content :=
      if config.emoji then
        "🐛 " ++ trimStartStr (replaceFirst translation.commit_fix "fix" "") ++
        "\n✨ " ++ trimStartStr (replaceFirst translation.commit_feat "feat" "") ++
        "\n" ++ (if config.description then translation.commit_description else "")
      else
        translation.commit_fix ++ "\n" ++ translation.commit_feat ++ "\n" ++
        (if config.description then translation.commit_description else "")
    .ok [Message.system system_content, Message.user INIT_DIFF,
         Message.assistant consistency_content]



/-! ## The interactive commit workflow (`src/commands/commit.rs`)

`execute_commit` is an interactive, recursive procedure.  It is embedded as
a deterministic interpreter over an environment `Env` (repository contents,
remotes, resolved configuration, engine behaviour) and a session state `St`
(index contents, the queue of the user's prompt answers, the engine attempt
counter, and a trace of the observable effects).  Recursion (the stage-all
restart and the regeneration loop) is bounded by a fuel parameter; exhausted
fuel is reported as `RunResult.outOfFuel`, which no theorem's scenario
reaches. -/

/-- Observable effects of one workflow run, in order. -/
inductive Event where
  | getStagedFiles
  | getChangedFiles
  | gitAdd (files : List String)
  | getDiff (files : List String)
  | promptStageAll
  | promptSelectFiles
  | getEngine
  | engineCall (diff : String)
  | promptConfirm
  | gitCommit (message : String) (args : List String)
  | getRemotes
  | promptPushSingle (remote : String)
  | promptPushSelect (options : List String)
  | gitPush (remote : String)
  | promptRegenerate
deriving DecidableEq

/-- One scripted answer to an interactive prompt.  `cancel` models a
dismissed prompt (`inquire` returning `Err(_)`). -/
inductive Answer where
  | yes
  | no
  | choice (s : String)
  | choices (ss : List String)
  | cancel
deriving DecidableEq

/-- The environment of one invocation: repository and collaborator
behaviour that the workflow only reads. -/
structure Env where
  changedFiles : List String
  remotes : List String
  config : Config
  gen : Nat → Except Error String
  diffOf : List String → String

/-- Mutable session state threaded through the interpreter. -/
structure St where
  staged : List String
  answers : List Answer
  attempt : Nat
  trace : List Event

/-- Append an event to the trace. -/
def emit (e : Event) (st : St) : St := { st with trace := st.trace ++ [e] }

/-- Pop the next scripted answer; an empty script behaves as a dismissal. -/
def popAnswer (st : St) : Answer × St :=
  match st.answers with
  | [] => (.cancel, st)
  | a :: rest => (a, { st with answers := rest })

/-- A `Confirm` prompt: `some b` on a yes/no answer, `none` on dismissal. -/
def popConfirm (st : St) : Option Bool × St :=
  match popAnswer st with
  | (.yes, st) => (some true, st)
  | (.no, st) => (some false, st)
  | (_, st) => (none, st)

/-- A `Select` prompt: `some s` on a selection, `none` on dismissal. -/
def popSelect (st : St) : Option String × St :=
  match popAnswer st with
  | (.choice s, st) => (some s, st)
  | (_, st) => (none, st)

/-- A `MultiSelect` prompt: `some files` on a selection, `none` on
dismissal. -/
def popMulti (st : St) : Option (List String) × St :=
  match popAnswer st with
  | (.choices ss, st) => (some ss, st)
  | (_, st) => (none, st)

/-- `git_add` (`src/utils/git.rs` lines 98-108) on the modelled index:
stage the files not already staged. -/
def stageFiles (files : List String) (st : St) : St :=
  { st with staged := st.staged ++ files.filter (fun f => ¬ f ∈ st.staged) }

/-- Outcome of a completed run: whether a commit was created and which
remote, if any, was pushed to. -/
structure Outcome where
  committed : Bool
  pushed : Option String
deriving DecidableEq

/-- Result of a run: `Ok(())`, a propagated `Error`, or exhausted fuel (a
marker of the model, not a behaviour of the program). -/
inductive RunResult where
  | ok (o : Outcome)
  | err (e : Error)
  | outOfFuel
deriving DecidableEq

/-- Exit status of `main` (`src/main.rs`): `Ok` exits 0, any error exits
non-zero.  Fuel exhaustion is mapped to 1 but is never reached in the
scenarios considered. -/
def exit_code : RunResult → Nat
  | .ok _ => 0
  | .err _ => 1
  | .outOfFuel => 1

/-- Push phase of `execute_commit` (`src/commands/commit.rs` lines 196-279),
entered after a successful commit when `config.gitpush` is set: enumerate
remotes; with none, return; with one, confirm `git push`; with several,
select among the remotes plus a "don't push" option. -/
def pushPhase (env : Env) (st : St) : RunResult × St :=
  let st := emit .getRemotes st
  match env.remotes with
  | [] => (.ok ⟨true, none⟩, st)
  | [r] =>
    let st := emit (.promptPushSingle r) st
    match popConfirm st with
    | (none, st) => (.err .UserCancelled, st)
    | (some true, st) =>
      let st := emit (.gitPush r) st
      (.ok ⟨true, some r⟩, st)
    | (some false, st) => (.ok ⟨true, none⟩, st)
  | rs =>
    let options := rs ++ ["don't push"]
    let st := emit (.promptPushSelect options) st
    match popSelect st with
    | (none, st) => (.err .UserCancelled, st)
    | (some remote, st) =>
      if remote ≠ "don't push" then
        let st := emit (.gitPush remote) st
        (.ok ⟨true, some remote⟩, st)
      else (.ok ⟨true, none⟩, st)

/-- Commit execution (`src/commands/commit.rs` lines 168-296, confirmed
branch): run `git commit`, then the push phase when enabled. -/
def commitPhase (env : Env) (call : GitCommitCall) (st : St) : RunResult × St :=
  let st := emit (.gitCommit call.message call.args) st
  if env.config.gitpush then pushPhase env st else (.ok ⟨true, none⟩, st)

/-- `execute_commit` from the diff-collection point on (`src/commands/commit.rs`
lines 102-296): collect the diff, check the API key, assemble the prompt,
run the engine, apply the message template, then confirm / commit / push or
regenerate.  `recur` is the recursive re-entry used by the regeneration
branch (line 292), which restarts `execute_commit` with `is_stage_all =
false`. -/
def genPhase (env : Env) (recur : St → RunResult × St) (extraArgs : List String)
    (fullGitmojiSpec skipConfirmation : Bool) (contextArg : Option String)
    (stagedFiles : List String) (st : St) : RunResult × St :=
  let st := emit (.getDiff stagedFiles) st
  let diff := env.diffOf stagedFiles
  let config := env.config
  if config.api_key = none ∧ config.ai_provider ≠ "ollama" ∧ config.ai_provider ≠ "test" then
    (.err .NoApiKey, st)
  else
    match get_main_commit_prompt config fullGitmojiSpec (contextArg.getD "") with
    | .error e => (.err e, st)
    | .ok _messages =>
      let st := emit .getEngine st
      let st := emit (.engineCall diff) st
      match env.gen st.attempt with
      | .error e => (.err e, { st with attempt := st.attempt + 1 })
      | .ok generated =>
        let st := { st with attempt := st.attempt + 1 }
        let call := commit_call extraArgs config generated
        let (confirmed, st) :=
          if skipConfirmation then (some true, st)
          else
            let st := emit .promptConfirm st
            popConfirm st
        match confirmed with
        | none => (.err .UserCancelled, st)
        | some true => commitPhase env call st
        | some false =>
          let st := emit .promptRegenerate st
          match popConfirm st with
          | (none, st) => (.err .UserCancelled, st)
          | (some true, st) => recur st
          | (some false, st) => (.ok ⟨false, none⟩, st)

/-- `execute_commit` (`src/commands/commit.rs` lines 26-297).  Staging
resolution (lines 39-100) followed by `genPhase`.  The two recursive
restarts of the source - `return execute_commit(.., true, ..)` after the
stage-all prompt (line 71) and `return execute_commit(.., false, ..)` on
regeneration (line 292) - consume one unit of fuel each. -/
def execute_commit (env : Env) :
    Nat → List String → Option String → Bool → Bool → Bool → St → RunResult × St
  | 0, _, _, _, _, _, st => (.outOfFuel, st)
  | fuel + 1, extraArgs, contextArg, isStageAll, fullGitmojiSpec, skipConfirmation, st =>
    let recur := fun st =>
      execute_commit env fuel extraArgs contextArg false fullGitmojiSpec skipConfirmation st
    if isStageAll then
      let st := emit .getChangedFiles st
      if env.changedFiles.isEmpty then (.err .NoStagedFiles, st)
      else
        let st := emit (.gitAdd env.changedFiles) st
        let st := stageFiles env.changedFiles st
        genPhase env recur extraArgs fullGitmojiSpec skipConfirmation contextArg
          env.changedFiles st
    else
      let st := emit .getStagedFiles st
      let stagedFiles := st.staged
      if stagedFiles.isEmpty then
        let st := emit .getChangedFiles st
        if env.changedFiles.isEmpty then (.err .NoStagedFiles, st)
        else
          let st := emit .promptStageAll st
          match popConfirm st with
          | (none, st) => (.err .UserCancelled, st)
          | (some true, st) =>
            execute_commit env fuel extraArgs contextArg true fullGitmojiSpec
              skipConfirmation st
          | (some false, st) =>
            let st := emit .promptSelectFiles st
            match popMulti st with
            | (none, st) => (.err .UserCancelled, st)
            | (some files, st) =>
              if files.isEmpty then (.err .UserCancelled, st)
              else
                let st := emit (.gitAdd files) st
                let st := stageFiles files st
                genPhase env recur extraArgs fullGitmojiSpec skipConfirmation
                  contextArg files st
      else
        genPhase env recur extraArgs fullGitmojiSpec skipConfirmation contextArg
          stagedFiles st

/-! ## `Config::load` caching (`src/commands/config.rs` lines 241-344) -/

/-- Environment variables consulted by `Config::load` (lines 270-338). -/
structure EnvVars where
  api_key : Option String
  tokens_max_input : Option String
  tokens_max_output : Option String
  description : Option String
  emoji : Option String
  model : Option String
  language : Option String
  message_template_placeholder : Option String
  prompt_module : Option String
  ai_provider : Option String
  one_line_commit : Option String
  api_url : Option String
  gitpush : Option String
  why : Option String
deriving DecidableEq

/-- The external sources `Config::load` reads on a cache miss: the parsed
global configuration file (`None` when absent or unparseable, in which case
the source keeps the defaults) and the environment. -/
structure ConfigWorld where
  fileConfig : Option Config
  env : EnvVars
deriving DecidableEq

/-- The resolution `Config::load` performs on a cache miss
(`src/commands/config.rs` lines 250-338): defaults, replaced wholesale by a
parsed global file, then per-key environment overrides (numeric and boolean
overrides apply only when the value parses). -/
def resolveConfig (w : ConfigWorld) : Config :=
  let c := match w.fileConfig with
    | some g => g
    | none => Config.default
  let c := match w.env.api_key with
    | some v => { c with api_key := some v }
    | none => c
  let c := match w.env.tokens_max_input with
    | some v => match parse_usize v with
      | some n => { c with tokens_max_input := n }
      | none => c
    | none => c
  let c := match w.env.tokens_max_output with
    | some v => match parse_usize v with
      | some n => { c with tokens_max_output := n }
      | none => c
    | none => c
  let c := match w.env.description with
    | some v => match parse_bool v with
      | some b => { c with description := b }
      | none => c
    | none => c
  let c := match w.env.emoji with
    | some v => match parse_bool v with
      | some b => { c with emoji := b }
      | none => c
    | none => c
  let c := match w.env.model with
    | some v => { c with model := v }
    | none => c
  let c := match w.env.language with
    | some v => { c with language := v }
    | none => c
  let c := match w.env.message_template_placeholder with
    | some v => { c with message_template_placeholder := v }
    | none => c
  let c := match w.env.prompt_module with
    | some v => { c with prompt_module := v }
    | none => c
  let c := match w.env.ai_provider with
    | some v => { c with ai_provider := v }
    | none => c
  let c := match w.env.one_line_commit with
    | some v => match parse_bool v with
      | some b => { c with one_line_commit := b }
      | none => c
    | none => c
  let c := match w.env.api_url with
    | some v => { c with api_url := some v }
    | none => c
  let c := match w.env.gitpush with
    | some v => match parse_bool v with
      | some b => { c with gitpush := b }
      | none => c
    | none => c
  let c := match w.env.why with
    | some v => match parse_bool v with
      | some b => { c with why := b }
      | none => c
    | none => c
  c

/-- Result of one `Config::load` call: the returned configuration, the cache
afterwards, and whether the call read the file / environment sources. -/
structure LoadResult where
  config : Config
  cache : Option Config
  readSources : Bool
deriving DecidableEq

/-- `Config::load` (`src/commands/config.rs` lines 241-344): return the
process-wide cached configuration when present (lines 243-244, no source
access); otherwise resolve from the sources and fill the cache (line 341). -/
def Config.load (w : ConfigWorld) (cache : Option Config) : LoadResult :=
  match cache with
  | some c => ⟨c, some c, false⟩
  | none =>
    let c := resolveConfig w
    ⟨c, some c, true⟩

/-! ## Concrete scenario data used by witnesses and counterexamples -/

/-- The content of the leading (system) message of an assembled prompt;
empty for a failed assembly. -/
def headSystemContent (r : Except Error (List Message)) : String :=
  match r with
  | .ok (m :: _) => m.content
  | _ => ""

/-- Concrete engine configuration used to refute C2's token count:
`max_tokens_input = 20`, `max_tokens_output = 5`. -/
def c2Config : EngineConfig :=
  { api_key := "key", model := "model", max_tokens_output := 5,
    max_tokens_input := 20, base_url := none }

/-- Concrete assembled messages used to refute C2's token count. -/
def c2Messages : List Message :=
  [Message.system "a", Message.user "x", Message.assistant "b"]

/-- Configuration with an API key present, used by the push and
confirmation-loop scenarios; all other fields are the defaults (push
enabled, provider `"openai"`, language `"en"`, emoji off). -/
def keyedConfig : Config := { Config.default with api_key := some "key" }

/-- Configuration with an API key and push disabled, used by the
confirmation-loop scenarios. -/
def noPushConfig : Config :=
  { Config.default with api_key := some "key", gitpush := false }

/-- Environment of the closed confirmation-loop counterexamples. -/
def loopEnv : Env := ⟨[], [], noPushConfig, fun n => .ok (toString n), fun _ => "D"⟩

/-- The message sequence assembled for the default configuration with no
context, used by the counterexample to C6. -/
def c6Msgs : List Message :=
  (get_main_commit_prompt Config.default false "").toOption.getD []



/-! ## Theorems -/

/-- Every successful `parse_usize_digits` result fits in 64 bits. -/
theorem parse_usize_digits_lt_two_pow (ds : List Char) (n : Nat)
    (h : parse_usize_digits ds = some n) : n < 2 ^ 64 := by
  unfold parse_usize_digits at h
  split at h
  · exact absurd h (by simp)
  · split at h
    · simp only [Option.some.injEq] at h
      omega
    · exact absurd h (by simp)

/-- Every successful `parse_usize` result fits in 64 bits. -/
theorem parse_usize_lt_two_pow (s : String) (n : Nat)
    (h : parse_usize s = some n) : n < 2 ^ 64 := by
  unfold parse_usize at h
  exact parse_usize_digits_lt_two_pow _ n h

/-- C10.  Configuration load-once consistency: after a first `Config::load`
has filled the cache, a later `Config::load` (no intervening save) returns
the first-loaded snapshot, leaves the cache unchanged and reads neither the
configuration file nor the environment, even when the underlying sources
`w2` differ from the first-read sources `w`. -/
theorem C10_config_load_once (w w2 : ConfigWorld) :
    (Config.load w2 (Config.load w none).cache).config = (Config.load w none).config ∧
    (Config.load w2 (Config.load w none).cache).cache = (Config.load w none).cache ∧
    (Config.load w2 (Config.load w none).cache).readSources = false := by
  simp [Config.load]

/-- C3.  The token-budget subtraction `max_tokens_input - max_tokens_output`
underflows exactly when the output budget exceeds the input budget, and the
configuration validators accept any pair of numeric values independently: for
any strings parsing to `a < b`, both values pass `validate_config`, and the
release-mode `usize` subtraction wraps to the huge value `2 ^ 64 - (b - a)`,
in particular exceeding the whole input budget `a`. -/
theorem C3_budget_subtraction_underflows (vin vout : String) (a b : Nat)
    (ha : parse_usize vin = some a) (hb : parse_usize vout = some b)
    (hab : a < b) :
    validate_config .OcoTokensMaxInput vin = .ok vin ∧
    validate_config .OcoTokensMaxOutput vout = .ok vout ∧
    usizeSub a b = 2 ^ 64 - (b - a) ∧
    a < usizeSub a b := by
  have hb64 := parse_usize_lt_two_pow vout b hb
  have hmod : usizeSub a b = 2 ^ 64 - (b - a) := by
    unfold usizeSub
    generalize hN : (2 : Nat) ^ 64 = N at hb64 ⊢
    have hlt : a + N - b < N := by omega
    rw [Nat.mod_eq_of_lt hlt]
    omega
  refine ⟨by simp [validate_config, ha], by simp [validate_config, hb], hmod, ?_⟩
  rw [hmod]
  generalize hN : (2 : Nat) ^ 64 = N at hb64 ⊢
  omega

/-- Witness for C3 at the concrete validator inputs `"10"` and `"100"`. -/
theorem C3_budget_subtraction_underflows_witness :
    (parse_usize "10" = some 10 ∧ parse_usize "100" = some 100 ∧ 10 < 100) ∧
    (validate_config .OcoTokensMaxInput "10" = .ok "10" ∧
     validate_config .OcoTokensMaxOutput "100" = .ok "100" ∧
     usizeSub 10 100 = 2 ^ 64 - (100 - 10) ∧
     10 < usizeSub 10 100) :=
  ⟨⟨by decide, by decide, by decide⟩,
   C3_budget_subtraction_underflows "10" "100" 10 100 (by decide) (by decide)
     (by decide)⟩

/-- C1.  The message-template phase substitutes the generated message into
the template argument, but the argument list forwarded to `git commit` is
the original pass-through list: the template argument is still forwarded
verbatim (`new_extra_args` is computed and dropped in the source).  This
theorem evaluates the embedded code at the failing input of the claim. -/
theorem C1_template_argument_still_forwarded :
    commit_call ["--template", "$msg — reviewed"] Config.default "feat: add X" =
      { message := "feat: add X — reviewed",
        args := ["--template", "$msg — reviewed"] } ∧
    "$msg — reviewed" ∈
      (commit_call ["--template", "$msg — reviewed"] Config.default
        "feat: add X").args := by
  decide

/-- C2 counterexample.  With the character-count tokenizer, threshold
`20 - 5 = 15`: the claim's token count (sum excluding the engine-appended
diff turn, whether or not the assembler's user turn is counted) does not
exceed the threshold, so under the claim no `TooManyTokens` failure occurs;
the code, whose count includes the appended diff turn, fails with
`TooManyTokens 16`. -/
theorem C2_counterexample_count_includes_diff_turn :
    generate_commit_message String.length c2Config c2Messages "dd" =
      .error (.TooManyTokens 16) ∧
    claim_token_count String.length c2Messages = 10 ∧
    ¬ claim_token_count String.length c2Messages >
        usizeSub c2Config.max_tokens_input c2Config.max_tokens_output ∧
    request_tokens String.length c2Messages = 15 ∧
    ¬ request_tokens String.length c2Messages >
        usizeSub c2Config.max_tokens_input c2Config.max_tokens_output := by
  decide

/-- C2 as amended.  The engine's token count is the sum over the outbound
messages including the final diff-carrying user turn (and excluding the
assembler's user-role messages); whenever that count exceeds
`max_tokens_input - max_tokens_output`, generation fails with
`TooManyTokens` carrying that count before any network request is built.
The second conjunct relates the code's count to the claim's count: it is
larger by exactly the diff turn's contribution `tc diff + 4`. -/
theorem C2_amended_token_budget (tc : String → Nat) (config : EngineConfig)
    (messages : List Message) (diff : String)
    (h : request_tokens tc (openai_messages messages diff) >
      usizeSub config.max_tokens_input config.max_tokens_output) :
    generate_commit_message tc config messages diff =
      .error (.TooManyTokens (request_tokens tc (openai_messages messages diff))) ∧
    request_tokens tc (openai_messages messages diff) =
      claim_token_count tc messages + (tc diff + 4) := by
  constructor
  · simp [generate_commit_message, h]
  · simp [request_tokens, claim_token_count, openai_messages, Message.user]

/-- Witness for C2's amended theorem at the concrete refuting input. -/
theorem C2_amended_token_budget_witness :
    (request_tokens String.length (openai_messages c2Messages "dd") >
       usizeSub c2Config.max_tokens_input c2Config.max_tokens_output) ∧
    (generate_commit_message String.length c2Config c2Messages "dd" =
       .error (.TooManyTokens
         (request_tokens String.length (openai_messages c2Messages "dd"))) ∧
     request_tokens String.length (openai_messages c2Messages "dd") =
       claim_token_count String.length c2Messages + (String.length "dd" + 4)) :=
  ⟨by decide, C2_amended_token_budget String.length c2Config c2Messages "dd"
    (by decide)⟩

set_option maxRecDepth 4096 in
/-- `get_translation` evaluated at `"en"`. -/
theorem get_translation_en : get_translation "en" = .ok enTranslation := by rfl

/-- C7.  When the API key is absent and the provider is not one of the
no-key providers (`"ollama"`, `"test"`), the workflow fails with `NoApiKey`
right after collecting the diff: no engine is constructed (`getEngine`) and
no generation call (`engineCall`) appears in the trace, which ends at
`getDiff`. -/
theorem C7_no_api_key_fails_before_engine (c : Config) (h1 : c.api_key = none)
    (h2 : c.ai_provider ≠ "ollama") (h3 : c.ai_provider ≠ "test")
    (f : String) (fs changed remotes : List String)
    (gen : Nat → Except Error String) (diffOf : List String → String)
    (extraArgs : List String) (contextArg : Option String)
    (fullSpec skipConf : Bool) (answers : List Answer) (fuel : Nat) :
    execute_commit ⟨changed, remotes, c, gen, diffOf⟩ (fuel + 1) extraArgs
        contextArg false fullSpec skipConf ⟨f :: fs, answers, 0, []⟩ =
      (.err .NoApiKey,
       ⟨f :: fs, answers, 0, [Event.getStagedFiles, Event.getDiff (f :: fs)]⟩) := by
  simp [execute_commit, genPhase, emit, h1, h2, h3]

/-- Witness for C7 at the default configuration (no API key, provider
`"openai"`). -/
theorem C7_no_api_key_fails_before_engine_witness :
    (Config.default.api_key = none ∧ Config.default.ai_provider ≠ "ollama" ∧
     Config.default.ai_provider ≠ "test") ∧
    execute_commit ⟨[], [], Config.default, fun _ => .ok "m", fun _ => "d"⟩ 1 []
        none false false false ⟨["a"], [], 0, []⟩ =
      (.err .NoApiKey,
       ⟨["a"], [], 0, [Event.getStagedFiles, Event.getDiff ["a"]]⟩) :=
  ⟨⟨rfl, by decide, by decide⟩,
   C7_no_api_key_fails_before_engine Config.default rfl (by decide) (by decide)
     "a" [] [] [] (fun _ => .ok "m") (fun _ => "d") [] none false false [] 0⟩

/-- C8.  Push selection after a successful commit with push enabled, for any
staged set `f :: fs`, any generated message `g` and any diff `d`:
with zero remotes the run ends `Committed` (`.ok ⟨true, none⟩`) and the trace
shows no push prompt and no push; with one remote `r` a yes/no prompt for
`r` is shown (accepting pushes to `r`); with two remotes `u, v` the
single-choice prompt offers `u`, `v` and "don't push", and selecting
"don't push" ends the run committed-but-not-pushed with no `gitPush` in the
trace. -/
theorem C8_push_selection (f : String) (fs : List String) (r u v g d : String)
    (fuel : Nat) :
    (execute_commit ⟨[], [], keyedConfig, fun _ => .ok g, fun _ => d⟩ (fuel + 1)
        [] none false false true ⟨f :: fs, [], 0, []⟩ =
      (.ok ⟨true, none⟩,
       ⟨f :: fs, [], 1,
        [Event.getStagedFiles, Event.getDiff (f :: fs), Event.getEngine,
         Event.engineCall d, Event.gitCommit g [], Event.getRemotes]⟩)) ∧
    (execute_commit ⟨[], [r], keyedConfig, fun _ => .ok g, fun _ => d⟩ (fuel + 1)
        [] none false false true ⟨f :: fs, [.yes], 0, []⟩ =
      (.ok ⟨true, some r⟩,
       ⟨f :: fs, [], 1,
        [Event.getStagedFiles, Event.getDiff (f :: fs), Event.getEngine,
         Event.engineCall d, Event.gitCommit g [], Event.getRemotes,
         Event.promptPushSingle r, Event.gitPush r]⟩)) ∧
    (execute_commit ⟨[], [u, v], keyedConfig, fun _ => .ok g, fun _ => d⟩
        (fuel + 1) [] none false false true
        ⟨f :: fs, [.choice "don't push"], 0, []⟩ =
      (.ok ⟨true, none⟩,
       ⟨f :: fs, [], 1,
        [Event.getStagedFiles, Event.getDiff (f :: fs), Event.getEngine,
         Event.engineCall d, Event.gitCommit g [], Event.getRemotes,
         Event.promptPushSelect [u, v, "don't push"]]⟩)) := by
  refine ⟨?_, ?_, ?_⟩ <;>
    simp [execute_commit, genPhase, commitPhase, pushPhase, emit, popConfirm,
      popSelect, popAnswer, commit_call, check_message_template, keyedConfig,
      Config.default, get_main_commit_prompt, get_translation_en]

/-- C4 as amended.  Declining confirmation and accepting regeneration
restarts `execute_commit` from the top with stage-all off: the staged files
are re-resolved (`getStagedFiles` appears a second time) and the diff is
re-collected, then prompt assembly and generation re-run; no staging prompt
(`promptStageAll`, `promptSelectFiles`) is shown, because the files are
still staged, and the commit uses the second generated message `g 1`. -/
theorem C4_amended_regeneration_restarts_from_top (fuel : Nat) (f : String)
    (fs : List String) (g : Nat → String) (d : List String → String)
    (rest : List Answer) :
    execute_commit ⟨[], [], noPushConfig, fun n => .ok (g n), d⟩ (fuel + 1 + 1)
        [] none false false false ⟨f :: fs, .no :: .yes :: .yes :: rest, 0, []⟩ =
      (.ok ⟨true, none⟩,
       ⟨f :: fs, rest, 2,
        [Event.getStagedFiles, Event.getDiff (f :: fs), Event.getEngine,
         Event.engineCall (d (f :: fs)), Event.promptConfirm,
         Event.promptRegenerate,
         Event.getStagedFiles, Event.getDiff (f :: fs), Event.getEngine,
         Event.engineCall (d (f :: fs)), Event.promptConfirm,
         Event.gitCommit (g 1) []]⟩) := by
  simp [execute_commit, genPhase, commitPhase, emit, popConfirm, popAnswer,
    commit_call, check_message_template, noPushConfig, Config.default,
    get_main_commit_prompt, get_translation_en]

/-- C4 counterexample.  At the concrete input (one staged file, answers:
decline confirmation, accept regeneration, then confirm), the workflow
resolves the staged files twice - the claim states regeneration re-enters at
the diff-collected stage without re-resolving staged files. -/
theorem C4_counterexample_staged_files_reresolved :
    (execute_commit loopEnv 2 [] none false false false
        ⟨["a.rs"], [.no, .yes, .yes], 0, []⟩).2.trace.count
      Event.getStagedFiles = 2 ∧
    (execute_commit loopEnv 2 [] none false false false
        ⟨["a.rs"], [.no, .yes, .yes], 0, []⟩).1 = .ok ⟨true, none⟩ := by
  decide

/-- C5 as amended.  Declining confirmation and then declining regeneration
terminates the workflow without committing (no `gitCommit` in the trace) but
as success: the run result is `Ok` and the process exit code is `0`, not the
`Cancelled`/non-zero termination the specification describes.  Dismissing
the regeneration prompt instead (the `cancel` answer) does terminate with
`UserCancelled`, whose exit code is non-zero. -/
theorem C5_amended_decline_decline_is_success (fuel : Nat) (f : String)
    (fs : List String) (g : Nat → String) (d : List String → String)
    (rest : List Answer) :
    (execute_commit ⟨[], [], noPushConfig, fun n => .ok (g n), d⟩ (fuel + 1)
        [] none false false false ⟨f :: fs, .no :: .no :: rest, 0, []⟩ =
      (.ok ⟨false, none⟩,
       ⟨f :: fs, rest, 1,
        [Event.getStagedFiles, Event.getDiff (f :: fs), Event.getEngine,
         Event.engineCall (d (f :: fs)), Event.promptConfirm,
         Event.promptRegenerate]⟩)) ∧
    exit_code (execute_commit ⟨[], [], noPushConfig, fun n => .ok (g n), d⟩
        (fuel + 1) [] none false false false
        ⟨f :: fs, .no :: .no :: rest, 0, []⟩).1 = 0 ∧
    (execute_commit ⟨[], [], noPushConfig, fun n => .ok (g n), d⟩ (fuel + 1)
        [] none false false false ⟨f :: fs, .no :: .cancel :: rest, 0, []⟩ =
      (.err .UserCancelled,
       ⟨f :: fs, rest, 1,
        [Event.getStagedFiles, Event.getDiff (f :: fs), Event.getEngine,
         Event.engineCall (d (f :: fs)), Event.promptConfirm,
         Event.promptRegenerate]⟩)) ∧
    exit_code (execute_commit ⟨[], [], noPushConfig, fun n => .ok (g n), d⟩
        (fuel + 1) [] none false false false
        ⟨f :: fs, .no :: .cancel :: rest, 0, []⟩).1 = 1 := by
  refine ⟨?_, ?_, ?_, ?_⟩ <;>
    simp [execute_commit, genPhase, emit, popConfirm, popAnswer, exit_code,
      commit_call, check_message_template, noPushConfig, Config.default,
      get_main_commit_prompt, get_translation_en]

/-- C5 counterexample.  At the concrete input (decline confirmation, decline
regeneration) the run result is `Ok` with nothing committed and exit code 0:
not the `Cancelled` error state with a non-zero exit that the claim
states. -/
theorem C5_counterexample_decline_exits_zero :
    (execute_commit loopEnv 1 [] none false false false
        ⟨["a.rs"], [.no, .no], 0, []⟩).1 = .ok ⟨false, none⟩ ∧
    (execute_commit loopEnv 1 [] none false false false
        ⟨["a.rs"], [.no, .no], 0, []⟩).1 ≠ .err .UserCancelled ∧
    exit_code (execute_commit loopEnv 1 [] none false false false
        ⟨["a.rs"], [.no, .no], 0, []⟩).1 = 0 ∧
    (execute_commit loopEnv 1 [] none false false false
        ⟨["a.rs"], [.no, .no], 0, []⟩).2.trace =
      [Event.getStagedFiles, Event.getDiff ["a.rs"], Event.getEngine,
       Event.engineCall "D", Event.promptConfirm, Event.promptRegenerate] := by
  decide

/-- A successful prompt assembly always yields exactly a system message, the
exemplar user diff and an assistant example, in this order. -/
theorem get_main_commit_prompt_shape (c : Config) (fullSpec : Bool)
    (ctx : String) (msgs : List Message)
    (h : get_main_commit_prompt c fullSpec ctx = .ok msgs) :
    ∃ s cc, msgs =
      [Message.system s, Message.user INIT_DIFF, Message.assistant cc] := by
  unfold get_main_commit_prompt at h
  cases htr : get_translation c.language with
  | error e =>
    rw [htr] at h
    exact absurd h (by simp)
  | ok tr =>
    rw [htr] at h
    simp only [Except.ok.injEq] at h
    exact ⟨_, _, h.symm⟩

/-- C6 as amended.  The engine's outbound list is exactly the non-`"user"`
messages of the assembled sequence, in order and unchanged, followed by one
user message carrying the raw diff; for any assembled prompt the
backend-visible roles are system, then the single example assistant message
(the exemplar user diff is filtered out, not an example user/assistant
pair), then the real diff as the final user turn; the exemplar diff message
itself is never part of the outbound list (unless the real diff happens to
equal it). -/
theorem C6_amended_outbound_payload (c : Config) (fullSpec : Bool)
    (ctx diff : String) (msgs : List Message)
    (h : get_main_commit_prompt c fullSpec ctx = .ok msgs) :
    openai_messages msgs diff =
      msgs.filter (fun m => m.role != "user") ++ [Message.user diff] ∧
    (openai_messages msgs diff).map Message.role =
      ["system", "assistant", "user"] ∧
    (openai_messages msgs diff).getLast? = some (Message.user diff) ∧
    (diff ≠ INIT_DIFF → Message.user INIT_DIFF ∉ openai_messages msgs diff) := by
  obtain ⟨s, cc, rfl⟩ := get_main_commit_prompt_shape c fullSpec ctx msgs h
  have he : openai_messages
      [Message.system s, Message.user INIT_DIFF, Message.assistant cc] diff =
      [Message.system s, Message.assistant cc, Message.user diff] := rfl
  refine ⟨rfl, rfl, rfl, fun hd hmem => ?_⟩
  rw [he] at hmem
  simp [Message.system, Message.user, Message.assistant] at hmem
  exact hd hmem.symm

set_option maxRecDepth 16384 in
/-- C6 counterexample.  For the concrete assembled prompt and the real diff
`"real diff"`, the backend-visible role sequence is system, assistant, user:
not the system / example-user / example-assistant / user shape the claim
describes - the exemplar user diff is present in the assembled sequence but
absent from the outbound list. -/
theorem C6_counterexample_no_exemplar_pair_outbound :
    (openai_messages c6Msgs "real diff").map Message.role =
      ["system", "assistant", "user"] ∧
    (openai_messages c6Msgs "real diff").map Message.role ≠
      ["system", "user", "assistant", "user"] ∧
    Message.user INIT_DIFF ∈ c6Msgs ∧
    Message.user INIT_DIFF ∉ openai_messages c6Msgs "real diff" := by
  refine ⟨rfl, by decide, by decide, by decide⟩

set_option maxRecDepth 16384 in
/-- Witness for C6's amended theorem at the default configuration. -/
theorem C6_amended_outbound_payload_witness :
    (get_main_commit_prompt Config.default false "" = .ok c6Msgs) ∧
    (openai_messages c6Msgs "real diff" =
       c6Msgs.filter (fun m => m.role != "user") ++ [Message.user "real diff"] ∧
     (openai_messages c6Msgs "real diff").map Message.role =
       ["system", "assistant", "user"] ∧
     (openai_messages c6Msgs "real diff").getLast? =
       some (Message.user "real diff") ∧
     ("real diff" ≠ INIT_DIFF →
       Message.user INIT_DIFF ∉ openai_messages c6Msgs "real diff")) :=
  ⟨by rfl,
   C6_amended_outbound_payload Config.default false "" "real diff" c6Msgs
     (by rfl)⟩

/-- An infix of `b`'s characters is an infix of the characters of `a ++ b`. -/
theorem infix_data_append_left (a b : String) {pat : List Char}
    (h : pat <:+: b.data) : pat <:+: (a ++ b).data := by
  obtain ⟨s, t, hst⟩ := h
  refine ⟨a.data ++ s, t, ?_⟩
  rw [String.data_append, ← hst]
  simp [List.append_assoc]

/-- An infix of `a`'s characters is an infix of the characters of `a ++ b`. -/
theorem infix_data_append_right (a b : String) {pat : List Char}
    (h : pat <:+: a.data) : pat <:+: (a ++ b).data := by
  obtain ⟨s, t, hst⟩ := h
  refine ⟨s, t ++ b.data, ?_⟩
  rw [String.data_append, ← hst]
  simp [List.append_assoc]

/-- A list containing a character that another list lacks is not an infix of
it. -/
theorem not_infix_of_mem_not_mem {pat s : List Char} (c : Char) (hc : c ∈ pat)
    (hs : c ∉ s) : ¬ pat <:+: s := fun h => hs (h.subset hc)

/-- `get_translation` only ever returns the English or the Brazilian
Portuguese table. -/
theorem get_translation_cases (lang : String) (tr : TranslationData)
    (h : get_translation lang = .ok tr) :
    tr = enTranslation ∨ tr = ptBrTranslation := by
  unfold get_translation at h
  cases hcode : get_language_code lang with
  | error e =>
    rw [hcode] at h
    exact absurd h (by simp)
  | ok code =>
    rw [hcode] at h
    unfold get_language_code at hcode
    split at hcode
    · simp only [Except.ok.injEq] at hcode
      subst hcode
      simp at h
      exact .inl h.symm
    · split at hcode
      · simp only [Except.ok.injEq] at hcode
        subst hcode
        simp at h
        exact .inr h.symm
      · exact absurd hcode (by simp)

/-- Whenever the user context is non-empty, the assembled system message
contains it verbatim as a substring (it is interpolated into the
user-context clause unchanged). -/
theorem system_contains_context (c : Config) (tr : TranslationData)
    (fullSpec : Bool) (ctx : String) (hc : ¬ ctx = "")
    (htr : get_translation c.language = .ok tr) :
    ctx.data <:+:
      (headSystemContent (get_main_commit_prompt c fullSpec ctx)).data := by
  unfold get_main_commit_prompt headSystemContent
  rw [htr]
  simp only [hc, ne_eq, not_false_eq_true, if_true]
  apply infix_data_append_left
  apply infix_data_append_right
  apply infix_data_append_left
  exact List.infix_rfl

set_option maxRecDepth 16384 in
/-- C9 counterexample.  With emoji mode off but a user context that itself
contains the abbreviated emoji legend, the assembled system message does
contain the legend: the claim's "regardless of … user context" fails. -/
theorem C9_counterexample_context_carries_legend :
    Config.default.emoji = false ∧
    GITMOJI_HELP.data <:+:
      (headSystemContent
        (get_main_commit_prompt Config.default false GITMOJI_HELP)).data :=
  ⟨rfl,
   system_contains_context Config.default enTranslation false GITMOJI_HELP
     (by decide) get_translation_en⟩

set_option maxRecDepth 65536 in
/-- C9 as amended.  For every configuration with emoji mode off whose
language resolves to a translation, and empty user context, the assembled
system message contains the fixed conventional-commit keyword clause
verbatim and contains neither the abbreviated nor the full emoji legend,
regardless of the full-emoji-spec flag and the remaining toggles.  (With a
non-empty user context the legend can re-enter through the context, as the
counterexample shows.) -/
theorem C9_amended_keyword_clause_no_legend (c : Config) (tr : TranslationData)
    (fullSpec : Bool) (he : c.emoji = false)
    (htr : get_translation c.language = .ok tr) :
    CONVENTIONAL_COMMIT_KEYWORDS.data <:+:
      (headSystemContent (get_main_commit_prompt c fullSpec "")).data ∧
    ¬ GITMOJI_HELP.data <:+:
      (headSystemContent (get_main_commit_prompt c fullSpec "")).data ∧
    ¬ FULL_GITMOJI_SPEC.data <:+:
      (headSystemContent (get_main_commit_prompt c fullSpec "")).data := by
  unfold get_main_commit_prompt headSystemContent
  rw [htr]
  simp only [he, Bool.false_eq_true, if_false, ne_eq, not_true_eq_false,
    if_false]
  refine ⟨?_, ?_, ?_⟩
  · iterate 8 apply infix_data_append_right
    apply infix_data_append_left
    exact List.infix_rfl
  · apply not_infix_of_mem_not_mem '🐛' (by decide)
    rcases get_translation_cases c.language tr htr with rfl | rfl <;>
      cases hd : c.description <;> cases ho : c.one_line_commit <;>
      cases hw : c.why <;>
      simp [hd, ho, hw, String.data_append] <;> decide
  · apply not_infix_of_mem_not_mem '🐛' (by decide)
    rcases get_translation_cases c.language tr htr with rfl | rfl <;>
      cases hd : c.description <;> cases ho : c.one_line_commit <;>
      cases hw : c.why <;>
      simp [hd, ho, hw, String.data_append] <;> decide

set_option maxRecDepth 16384 in
/-- Witness for C9's amended theorem at the default configuration. -/
theorem C9_amended_keyword_clause_no_legend_witness :
    (Config.default.emoji = false ∧
     get_translation Config.default.language = .ok enTranslation) ∧
    (CONVENTIONAL_COMMIT_KEYWORDS.data <:+:
       (headSystemContent (get_main_commit_prompt Config.default false "")).data ∧
     ¬ GITMOJI_HELP.data <:+:
       (headSystemContent (get_main_commit_prompt Config.default false "")).data ∧
     ¬ FULL_GITMOJI_SPEC.data <:+:
       (headSystemContent (get_main_commit_prompt Config.default false "")).data) :=
  ⟨⟨rfl, get_translation_en⟩,
   C9_amended_keyword_clause_no_legend Config.default enTranslation false rfl
     get_translation_en⟩


end Oco
